import Mathlib

/-!
Shallow embedding of `src/pytest_opentelemetry/instrumentation.py`
(pytest-opentelemetry).

The plugin is purely reactive: pytest drives it through hook calls, and every
handler only reads and writes the plugin's own state (`self.session_span`,
`self.has_error`, `self.fixture_teardown_span`) plus the ambient OpenTelemetry
context and span store.  We model the span store as a list of `Span` records
indexed by creation order, the ambient "current span in context" as a stack of
indices (each `with tracer.start_as_current_span(...)` pushes on entry and pops
and ends on exit), and each hook as a function on a `PluginState`.  Hookwrapper
hooks (which bracket a phase) are modelled as an enter half and an exit half.

External collaborators are modelled after their documented behaviour:
  * OpenTelemetry spans: `update_name`, `set_attributes` (per-key upsert),
    `set_status`, `record_exception` (appends one exception event whose
    `exception.stacktrace` attribute is overridden by the attributes the
    caller passes), `end`; a span is exported/reported iff it was ended.
    `Status.is_ok` is true for the UNSET and OK codes, false only for ERROR.
  * `trace.get_current_span()` yields the top of the ambient context stack;
    with an empty stack OpenTelemetry returns a non-recording span, so the
    corresponding mutations are no-ops.
  * path resolution for fixtures (`getfslineno` plus `Path.relative_to`) is
    abstracted: a `FixtureDef` carries the already-resolved file path string
    and line number that the source would compute.
-/

/-- Scalar attribute values attached to spans. -/
inductive AttrVal where
  | str (s : String)
  | int (n : Int)
deriving Repr, DecidableEq

/-- Span attributes: an insertion-ordered association list, as the Python dict. -/
abbrev Attrs := List (String × AttrVal)

/-- Dictionary lookup on an attribute list. -/
def lookupAttr (k : String) : Attrs → Option AttrVal
  | [] => none
  | (k2, v) :: rest => if k2 = k then some v else lookupAttr k rest

/-- Whether an attribute key is present. -/
def hasAttr (k : String) (a : Attrs) : Bool := (lookupAttr k a).isSome

/-- OpenTelemetry `Span.set_attribute`: overwrite the value when the key is
already present, otherwise append the pair. -/
def set_attribute (a : Attrs) (k : String) (v : AttrVal) : Attrs :=
  if hasAttr k a then a.map (fun p => if p.1 = k then (k, v) else p) else a ++ [(k, v)]

/-- OpenTelemetry `Span.set_attributes`: set each key of `upd` in order. -/
def set_attributes (a : Attrs) (upd : Attrs) : Attrs :=
  upd.foldl (fun acc p => set_attribute acc p.1 p.2) a

/-- OpenTelemetry status codes. -/
inductive StatusCode where
  | unset
  | ok
  | error
deriving Repr, DecidableEq

/-- OpenTelemetry `Status`: a code plus an optional description. -/
structure Status where
  status_code : StatusCode
  description : Option String := none
deriving Repr, DecidableEq

/-- OpenTelemetry `Status.is_ok`: everything except ERROR counts as ok
(the UNSET default included). -/
def Status.is_ok (s : Status) : Bool := s.status_code ≠ StatusCode.error

/-- One recorded exception event (`Span.record_exception`): the plugin always
supplies `exception.stacktrace` explicitly, so the event carries the
exception's type name, its message, and that stacktrace text. -/
structure ExceptionEvent where
  exception_type : String
  exception_message : String
  exception_stacktrace : String
deriving Repr, DecidableEq

/-- A span in the store.  `parent` is the index of the parent span fixed at
creation time; `ended` records whether `Span.end` ran (only ended spans are
exported, i.e. reported). -/
structure Span where
  name : String
  attributes : Attrs
  status : Status
  events : List ExceptionEvent
  ended : Bool
  parent : Option Nat
deriving Repr, DecidableEq

instance : Inhabited Span :=
  ⟨{ name := "", attributes := [], status := {status_code := StatusCode.unset},
     events := [], ended := false, parent := none }⟩

/-- The slice of `pytest.Item` the plugin reads: `item.name`, `item.nodeid`
and `item.location = (filepath, line_number, domain)`.  `line_number` is
pytest's `Optional[int]`; Python truthiness makes both `None` and `0` falsy. -/
structure Item where
  name : String
  nodeid : String
  filepath : String
  line_number : Option Int
deriving Repr, DecidableEq

/-- The slice of `_pytest.fixtures.FixtureDef` the plugin reads: `argname`,
`cached_result` (only compared against `None`, so the cached tuple itself is
elided), `has_location`, and the source location the plugin would resolve via
`resolve_fixture_function` / `getfslineno` / `Path.relative_to` (abstracted
here as the resolved path string and integer line). -/
structure FixtureDef where
  argname : String
  cached_result : Option Unit
  has_location : Bool
  filepath : String
  line_number : Int
deriving Repr, DecidableEq

/-- The slice of `_pytest.reports.TestReport` the plugin reads: `report.when`,
`report.outcome`, and `str(report.longrepr)`. -/
structure TestReport where
  when : String
  outcome : String
  longrepr : String
deriving Repr, DecidableEq

/-- The slice of `call.excinfo` the plugin reads in `pytest_exception_interact`:
`type_repr` models `str(excinfo.type)` (used for the status description),
`type_name` the exception class name that `record_exception` stores as
`exception.type`, and `value` models `str(excinfo.value)`. -/
structure ExceptionInfo where
  type_repr : String
  type_name : String
  value : String
deriving Repr, DecidableEq

/-- The whole plugin + tracer state: the span store (indexed by creation
order), the ambient current-span stack, `self.session_span`,
`self.fixture_teardown_span` (`none` models the attribute being absent, as
before `pytest_runtest_teardown` or after its `del`), and `self.has_error`. -/
structure PluginState where
  spans : List Span
  ctx : List Nat
  session_span : Nat
  fixture_teardown_span : Option Nat
  has_error : Bool
deriving Repr, DecidableEq

/-- A freshly started span (status unset, nothing recorded, not ended). -/
def new_span (name : String) (attributes : Attrs) (parent : Option Nat) : Span :=
  { name := name, attributes := attributes,
    status := { status_code := StatusCode.unset, description := none },
    events := [], ended := false, parent := parent }

/-- Apply `f` to the span at index `i` (no-op when out of range). -/
def modifySpanList : List Span → Nat → (Span → Span) → List Span
  | [], _, _ => []
  | s :: rest, 0, f => f s :: rest
  | s :: rest, n + 1, f => s :: modifySpanList rest n f

/-- `tracer.start_span`: append a fresh span.  Its index is the store's length
before the append. -/
def start_span (st : PluginState) (name : String) (attributes : Attrs)
    (parent : Option Nat) : PluginState :=
  { st with spans := st.spans ++ [new_span name attributes parent] }

/-- `trace.get_current_span()`: top of the ambient context stack. -/
def current_span (st : PluginState) : Option Nat := st.ctx.head?

/-- Entering `with tracer.start_as_current_span(...)`: start the span and push
it onto the ambient context. -/
def start_as_current_span (st : PluginState) (name : String) (attributes : Attrs)
    (parent : Option Nat) : PluginState :=
  { st with spans := st.spans ++ [new_span name attributes parent],
            ctx := st.spans.length :: st.ctx }

/-- Leaving a `with tracer.start_as_current_span(...)` block: pop the ambient
context and end the popped span. -/
def exit_current_span (st : PluginState) : PluginState :=
  match st.ctx with
  | [] => st
  | i :: rest =>
      { st with spans := modifySpanList st.spans i (fun s => { s with ended := true }),
                ctx := rest }

def PYTEST_SPAN_TYPE : String := "pytest.span_type"
def CODE_FILEPATH : String := "code.filepath"
def CODE_FUNCTION : String := "code.function"
def CODE_LINENO : String := "code.lineno"
def EXCEPTION_STACKTRACE : String := "exception.stacktrace"

/-- Attributes built by `pytest_runtest_protocol` (the `# In some cases like
tavern, line_number can be 0` guard keeps `code.lineno` out when falsy). -/
def runtest_protocol_attributes (item : Item) : Attrs :=
  let attributes : Attrs :=
    [(CODE_FILEPATH, AttrVal.str item.filepath),
     (CODE_FUNCTION, AttrVal.str item.name),
     ("pytest.nodeid", AttrVal.str item.nodeid),
     (PYTEST_SPAN_TYPE, AttrVal.str "test")]
  match item.line_number with
  | some line_number =>
      if line_number ≠ 0 then attributes ++ [(CODE_LINENO, AttrVal.int line_number)]
      else attributes
  | none => attributes

/-- Attributes built by `pytest_runtest_setup`. -/
def runtest_setup_attributes (item : Item) : Attrs :=
  let attributes : Attrs :=
    [(CODE_FILEPATH, AttrVal.str item.filepath),
     (CODE_FUNCTION, AttrVal.str item.name),
     ("pytest.nodeid", AttrVal.str item.nodeid),
     (PYTEST_SPAN_TYPE, AttrVal.str "test setup")]
  match item.line_number with
  | some line_number =>
      if line_number ≠ 0 then attributes ++ [(CODE_LINENO, AttrVal.int line_number)]
      else attributes
  | none => attributes

/-- Attributes built by `pytest_runtest_call`. -/
def runtest_call_attributes (item : Item) : Attrs :=
  let attributes : Attrs :=
    [(CODE_FILEPATH, AttrVal.str item.filepath),
     (CODE_FUNCTION, AttrVal.str item.name),
     ("pytest.nodeid", AttrVal.str item.nodeid),
     (PYTEST_SPAN_TYPE, AttrVal.str "test call")]
  match item.line_number with
  | some line_number =>
      if line_number ≠ 0 then attributes ++ [(CODE_LINENO, AttrVal.int line_number)]
      else attributes
  | none => attributes

/-- Attributes built by `pytest_runtest_teardown`. -/
def runtest_teardown_attributes (item : Item) : Attrs :=
  let attributes : Attrs :=
    [(CODE_FILEPATH, AttrVal.str item.filepath),
     (CODE_FUNCTION, AttrVal.str item.name),
     ("pytest.nodeid", AttrVal.str item.nodeid),
     (PYTEST_SPAN_TYPE, AttrVal.str "test teardown")]
  match item.line_number with
  | some line_number =>
      if line_number ≠ 0 then attributes ++ [(CODE_LINENO, AttrVal.int line_number)]
      else attributes
  | none => attributes

/-- Attributes built by `pytest_fixture_setup`: the location pair is added only
under `fixturedef.has_location`, and `code.lineno` only when truthy. -/
def fixture_setup_attributes (fixturedef : FixtureDef) : Attrs :=
  let attributes : Attrs := [(PYTEST_SPAN_TYPE, AttrVal.str "fixture setup")]
  if fixturedef.has_location then
    let attributes := attributes ++ [(CODE_FILEPATH, AttrVal.str fixturedef.filepath)]
    if fixturedef.line_number ≠ 0 then
      attributes ++ [(CODE_LINENO, AttrVal.int fixturedef.line_number)]
    else attributes
  else attributes

/-- Attributes built by `pytest_fixture_post_finalizer` for a renamed
fixture-teardown span. -/
def fixture_post_finalizer_attributes (fixturedef : FixtureDef) : Attrs :=
  let attributes : Attrs := [(PYTEST_SPAN_TYPE, AttrVal.str "fixture teardown")]
  if fixturedef.has_location then
    let attributes := attributes ++ [(CODE_FILEPATH, AttrVal.str fixturedef.filepath)]
    if fixturedef.line_number ≠ 0 then
      attributes ++ [(CODE_LINENO, AttrVal.int fixturedef.line_number)]
    else attributes
  else attributes

/-- `pytest_sessionstart`: start the root run span (under the optional trace
parent, which carries no observable state here) and clear `has_error`. -/
def pytest_sessionstart (session_name : String) : PluginState :=
  { spans := [new_span session_name [(PYTEST_SPAN_TYPE, AttrVal.str "run")] none],
    ctx := [], session_span := 0, fixture_teardown_span := none, has_error := false }

/-- The slice of the tracer provider `try_force_flush` inspects:
whether `hasattr(provider, 'force_flush')`. -/
structure TracerProvider where
  has_force_flush : Bool
deriving Repr, DecidableEq

/-- `OpenTelemetryPlugin.try_force_flush`: flush and return `True` when the
provider has `force_flush`, otherwise return `False` (never raise). -/
def try_force_flush (provider : TracerProvider) : Bool :=
  if provider.has_force_flush then true else false

/-- `pytest_sessionfinish`: set the run span's status from `has_error`, end
it, and attempt a flush; the Bool is `try_force_flush`'s result.  The
`set_status` and `end` calls hit the same span, so they appear as one store
update. -/
def pytest_sessionfinish (st : PluginState) (provider : TracerProvider) :
    PluginState × Bool :=
  ({ st with
      spans := modifySpanList st.spans st.session_span (fun s =>
        { s with
          status :=
            { status_code := (if st.has_error then StatusCode.error else StatusCode.ok),
              description := none },
          ended := true }) },
   try_force_flush provider)

/-- `pytest_runtest_protocol`, before its `yield`: start the test span as
current, parented on the session span (`trace.set_span_in_context`). -/
def pytest_runtest_protocol_enter (st : PluginState) (item : Item) : PluginState :=
  start_as_current_span st item.name (runtest_protocol_attributes item)
    (some st.session_span)

/-- `pytest_runtest_protocol`, after its `yield`: the `with` block ends the
test span. -/
def pytest_runtest_protocol_exit (st : PluginState) : PluginState :=
  exit_current_span st

/-- `pytest_runtest_setup`, before its `yield`. -/
def pytest_runtest_setup_enter (st : PluginState) (item : Item) : PluginState :=
  start_as_current_span st (item.name ++ " setup") (runtest_setup_attributes item)
    (current_span st)

/-- `pytest_runtest_setup`, after its `yield`. -/
def pytest_runtest_setup_exit (st : PluginState) : PluginState :=
  exit_current_span st

/-- `pytest_runtest_call`, before its `yield`. -/
def pytest_runtest_call_enter (st : PluginState) (item : Item) : PluginState :=
  start_as_current_span st (item.name ++ " call") (runtest_call_attributes item)
    (current_span st)

/-- `pytest_runtest_call`, after its `yield`. -/
def pytest_runtest_call_exit (st : PluginState) : PluginState :=
  exit_current_span st

/-- `pytest_runtest_teardown`, before its `yield`: open the teardown phase
span as current, then start the first temporary fixture-teardown placeholder
(`tracer.start_span("fixture teardown")`, not made current). -/
def pytest_runtest_teardown_enter (st : PluginState) (item : Item) : PluginState :=
  { st with
    spans := st.spans ++
      [new_span (item.name ++ " teardown") (runtest_teardown_attributes item)
        (current_span st),
       new_span "fixture teardown" [] (some st.spans.length)],
    ctx := st.spans.length :: st.ctx,
    fixture_teardown_span := some (st.spans.length + 1) }

/-- `pytest_runtest_teardown`, after its `yield`: the `with` block ends the
teardown phase span, then `del self.fixture_teardown_span` discards the
trailing placeholder without ending it. -/
def pytest_runtest_teardown_exit (st : PluginState) : PluginState :=
  match st.ctx with
  | [] => { st with fixture_teardown_span := none }
  | i :: rest =>
      { st with spans := modifySpanList st.spans i (fun s => { s with ended := true }),
                ctx := rest, fixture_teardown_span := none }

/-- `pytest_fixture_setup`, before its `yield`. -/
def pytest_fixture_setup_enter (st : PluginState) (fixturedef : FixtureDef) :
    PluginState :=
  start_as_current_span st (fixturedef.argname ++ " setup")
    (fixture_setup_attributes fixturedef) (current_span st)

/-- `pytest_fixture_setup`, after its `yield`. -/
def pytest_fixture_setup_exit (st : PluginState) : PluginState :=
  exit_current_span st

/-- `pytest_fixture_post_finalizer`.  Three paths, as in the source:
without the `fixture_teardown_span` attribute (early exit via `-x`), just
start the next placeholder; with a fixture whose `cached_result is None`
(already torn down), skip it and start the next placeholder; otherwise rename
the placeholder to `"<argname> teardown"`, set its attributes, end it, and
start the next placeholder.  The handler's `yield` has no observable effect
between these steps. -/
def pytest_fixture_post_finalizer (st : PluginState) (fixturedef : FixtureDef) :
    PluginState :=
  match st.fixture_teardown_span with
  | none =>
      { st with spans := st.spans ++ [new_span "fixture teardown" [] (current_span st)],
                fixture_teardown_span := some st.spans.length }
  | some cur =>
    match fixturedef.cached_result with
    | none =>
        { st with spans := st.spans ++ [new_span "fixture teardown" [] (current_span st)],
                  fixture_teardown_span := some st.spans.length }
    | some _ =>
        -- `update_name`, `set_attributes` and `end` hit the same placeholder
        -- span `cur`, so they appear as one store update; the follow-up
        -- `tracer.start_span` appends the next placeholder.
        { st with
          spans := modifySpanList st.spans cur (fun s =>
              { s with name := fixturedef.argname ++ " teardown",
                       attributes := set_attributes s.attributes
                         (fixture_post_finalizer_attributes fixturedef),
                       ended := true }) ++
            [new_span "fixture teardown" [] (current_span st)],
          fixture_teardown_span := some st.spans.length }

/-- `pytest_exception_interact`: record one exception event on the current
span (its `exception.stacktrace` attribute overridden with
`str(report.longrepr)`) and set that span's status to ERROR with the
`f-string` description `str(excinfo.type) ++ ": " ++ str(excinfo.value)`. -/
def pytest_exception_interact (st : PluginState) (excinfo : ExceptionInfo)
    (report : TestReport) : PluginState :=
  match current_span st with
  | none => st
  | some i =>
    -- `record_exception` and `set_status` hit the same current span, so they
    -- appear as one store update.
    { st with spans := modifySpanList st.spans i (fun s =>
        { s with
          events := s.events ++
            [{ exception_type := excinfo.type_name,
               exception_message := excinfo.value,
               exception_stacktrace := report.longrepr }],
          status :=
            { status_code := StatusCode.error,
              description := some (excinfo.type_repr ++ ": " ++ excinfo.value) } }) }

/-- `pytest_runtest_logreport`: ignore everything but the `call` phase; OR the
failure into `has_error` and set the current span's status. -/
def pytest_runtest_logreport (st : PluginState) (report : TestReport) : PluginState :=
  if report.when ≠ "call" then st
  else
    match st.ctx.head? with
    | none => { st with has_error := st.has_error || (report.outcome == "failed") }
    | some i =>
        { st with
          has_error := st.has_error || (report.outcome == "failed"),
          spans := modifySpanList st.spans i (fun s =>
            { s with status :=
                { status_code :=
                    (if report.outcome == "failed" then StatusCode.error
                     else StatusCode.ok),
                  description := none } }) }

/-- The lifecycle notifications pytest delivers to the plugin within one
session (hookwrapper hooks split into their enter/exit halves). -/
inductive Event where
  | runtest_protocol_enter (item : Item)
  | runtest_protocol_exit
  | runtest_setup_enter (item : Item)
  | runtest_setup_exit
  | runtest_call_enter (item : Item)
  | runtest_call_exit
  | runtest_teardown_enter (item : Item)
  | runtest_teardown_exit
  | fixture_setup_enter (fixturedef : FixtureDef)
  | fixture_setup_exit
  | fixture_post_finalizer (fixturedef : FixtureDef)
  | exception_interact (excinfo : ExceptionInfo) (report : TestReport)
  | runtest_logreport (report : TestReport)
deriving Repr, DecidableEq

/-- Dispatch one notification to its handler. -/
def step (st : PluginState) (e : Event) : PluginState :=
  match e with
  | Event.runtest_protocol_enter item => pytest_runtest_protocol_enter st item
  | Event.runtest_protocol_exit => pytest_runtest_protocol_exit st
  | Event.runtest_setup_enter item => pytest_runtest_setup_enter st item
  | Event.runtest_setup_exit => pytest_runtest_setup_exit st
  | Event.runtest_call_enter item => pytest_runtest_call_enter st item
  | Event.runtest_call_exit => pytest_runtest_call_exit st
  | Event.runtest_teardown_enter item => pytest_runtest_teardown_enter st item
  | Event.runtest_teardown_exit => pytest_runtest_teardown_exit st
  | Event.fixture_setup_enter fixturedef => pytest_fixture_setup_enter st fixturedef
  | Event.fixture_setup_exit => pytest_fixture_setup_exit st
  | Event.fixture_post_finalizer fixturedef => pytest_fixture_post_finalizer st fixturedef
  | Event.exception_interact excinfo report => pytest_exception_interact st excinfo report
  | Event.runtest_logreport report => pytest_runtest_logreport st report

/-- Process a notification sequence. -/
def run_events (st : PluginState) (events : List Event) : PluginState :=
  events.foldl step st

/-- `pytest.span_type` attribute of a span, the plugin's own discriminator. -/
def span_type (s : Span) : Option AttrVal := lookupAttr PYTEST_SPAN_TYPE s.attributes

/-- Spans actually reported (exported): exactly the ended ones. -/
def reported_spans (st : PluginState) : List Span := st.spans.filter (fun s => s.ended)

/-- Names of the reported spans, in creation order. -/
def reported_span_names (st : PluginState) : List String :=
  (reported_spans st).map (fun s => s.name)

/-- Names of the reported spans tagged `pytest.span_type = "fixture teardown"`. -/
def reported_fixture_teardown_names (st : PluginState) : List String :=
  ((reported_spans st).filter
    (fun s => span_type s == some (AttrVal.str "fixture teardown"))).map (fun s => s.name)

/-- The carrier-derived trace context: `propagate.extract` is injective on the
carriers this plugin builds, so the context is modelled by the carrier. -/
inductive Context where
  | extracted (carrier : List (String × String))
deriving Repr, DecidableEq

/-- `propagate.extract` on a carrier dict. -/
def propagate_extract (carrier : List (String × String)) : Context :=
  Context.extracted carrier

/-- The slice of `Config` read by `get_trace_parent`:
`config.getvalue('--trace-parent')` and `getattr(config, 'workerinput', None)`. -/
structure Config where
  trace_parent_option : Option String
  workerinput : Option (List (String × String))
deriving Repr, DecidableEq

/-- `os.environ.get('TRACEPARENT')`. -/
structure Environ where
  TRACEPARENT : Option String
deriving Repr, DecidableEq

/-- Python truthiness of an optional string (`None` and `""` are falsy),
as used by the walrus-`if` in `get_trace_parent`. -/
def truthy_str : Option String → Option String
  | some s => if s = "" then none else some s
  | none => none

/-- Python truthiness of an optional dict (`None` and `{}` are falsy). -/
def truthy_dict : Option (List (String × String)) → Option (List (String × String))
  | some d => if d = [] then none else some d
  | none => none

/-- `OpenTelemetryPlugin.get_trace_parent`: `--trace-parent` option first,
then the `TRACEPARENT` environment variable, else `None`. -/
def OpenTelemetryPlugin.get_trace_parent (config : Config) (environ : Environ) :
    Option Context :=
  match truthy_str config.trace_parent_option with
  | some trace_parent => some (propagate_extract [("traceparent", trace_parent)])
  | none =>
  match truthy_str environ.TRACEPARENT with
  | some trace_parent => some (propagate_extract [("traceparent", trace_parent)])
  | none => none

/-- `XdistOpenTelemetryPlugin.get_trace_parent`: the worker handshake payload
(`config.workerinput`) when truthy, otherwise the base class rule. -/
def XdistOpenTelemetryPlugin.get_trace_parent (config : Config) (environ : Environ) :
    Option Context :=
  match truthy_dict config.workerinput with
  | some workerinput => some (propagate_extract workerinput)
  | none => OpenTelemetryPlugin.get_trace_parent config environ

/-!  Runner notification sequences.  pytest drives the plugin in a fixed
order (`runtestprotocol` and `call_and_report` in `_pytest.runner`): the
protocol wrapper brackets the whole item; each phase is bracketed by its
hookwrapper and followed by `pytest_runtest_logreport` (preceded by
`pytest_exception_interact` when the phase raised, both emitted after the
phase wrapper has exited, i.e. with the test span current); the call phase is
skipped when setup failed; `pytest_fixture_post_finalizer` fires inside the
teardown bracket, once per `FixtureDef.finish` invocation, and the runner
replays `finish` for a fixture once more per fixture that depended on it
(with `cached_result` already cleared to `None` on the replay). -/

/-- Notifications for one passing test item that uses no fixtures. -/
def no_fixture_item_events (item : Item) : List Event :=
  [Event.runtest_protocol_enter item,
   Event.runtest_setup_enter item, Event.runtest_setup_exit,
   Event.runtest_logreport { when := "setup", outcome := "passed", longrepr := "" },
   Event.runtest_call_enter item, Event.runtest_call_exit,
   Event.runtest_logreport { when := "call", outcome := "passed", longrepr := "" },
   Event.runtest_teardown_enter item, Event.runtest_teardown_exit,
   Event.runtest_logreport { when := "teardown", outcome := "passed", longrepr := "" },
   Event.runtest_protocol_exit]

/-- Plugin state after a session start followed by one fixtureless item. -/
def no_fixture_final (session_name : String) (item : Item) : PluginState :=
  run_events (pytest_sessionstart session_name) (no_fixture_item_events item)

/-- Notifications for one passing test item using fixtures `a` and `b`, where
`b` depends on `a`: setup resolves `a` then `b`; teardown finalizes `b`
first, replays `b`'s `finish` (now with `cached_result = None`) while
finalizing `a`, then reports `a`'s own finalization. -/
def chained_fixture_item_events (item : Item) (a b : FixtureDef) : List Event :=
  [Event.runtest_protocol_enter item,
   Event.runtest_setup_enter item,
   Event.fixture_setup_enter a, Event.fixture_setup_exit,
   Event.fixture_setup_enter b, Event.fixture_setup_exit,
   Event.runtest_setup_exit,
   Event.runtest_logreport { when := "setup", outcome := "passed", longrepr := "" },
   Event.runtest_call_enter item, Event.runtest_call_exit,
   Event.runtest_logreport { when := "call", outcome := "passed", longrepr := "" },
   Event.runtest_teardown_enter item,
   Event.fixture_post_finalizer b,
   Event.fixture_post_finalizer { b with cached_result := none },
   Event.fixture_post_finalizer a,
   Event.runtest_teardown_exit,
   Event.runtest_logreport { when := "teardown", outcome := "passed", longrepr := "" },
   Event.runtest_protocol_exit]

/-- Plugin state after a session start followed by one item using the chained
fixtures `a` (named `a_name`, at `a_fp:5`) and `b` (named `b_name`, at
`b_fp:9`); the item sits at `fp:3`. -/
def chained_final (session_name item_name nodeid fp a_name a_fp b_name b_fp : String) :
    PluginState :=
  run_events (pytest_sessionstart session_name)
    (chained_fixture_item_events
      { name := item_name, nodeid := nodeid, filepath := fp, line_number := some 3 }
      { argname := a_name, cached_result := some (), has_location := true,
        filepath := a_fp, line_number := 5 }
      { argname := b_name, cached_result := some (), has_location := true,
        filepath := b_fp, line_number := 9 })

/-- Notifications for one fixtureless item whose call phase raises: the
runner emits `pytest_exception_interact` and then the failed call report
after the call wrapper has exited. -/
def failing_call_item_events (item : Item) (excinfo : ExceptionInfo)
    (longrepr : String) : List Event :=
  [Event.runtest_protocol_enter item,
   Event.runtest_setup_enter item, Event.runtest_setup_exit,
   Event.runtest_logreport { when := "setup", outcome := "passed", longrepr := "" },
   Event.runtest_call_enter item, Event.runtest_call_exit,
   Event.exception_interact excinfo { when := "call", outcome := "failed", longrepr := longrepr },
   Event.runtest_logreport { when := "call", outcome := "failed", longrepr := longrepr },
   Event.runtest_teardown_enter item, Event.runtest_teardown_exit,
   Event.runtest_logreport { when := "teardown", outcome := "passed", longrepr := "" },
   Event.runtest_protocol_exit]

/-- Plugin state after a session start followed by one failing-call item. -/
def failing_call_final (session_name : String) (item : Item)
    (excinfo : ExceptionInfo) (longrepr : String) : PluginState :=
  run_events (pytest_sessionstart session_name)
    (failing_call_item_events item excinfo longrepr)

/-- Notifications for one item using fixture `fx` whose setup raises: the
runner skips the call phase entirely (no `pytest_runtest_call` hook call and
no call report), while setup and teardown still run; the broken fixture still
has a cached (error) result, so its finalization is reported. -/
def failing_setup_item_events (item : Item) (fx : FixtureDef)
    (excinfo : ExceptionInfo) (longrepr : String) : List Event :=
  [Event.runtest_protocol_enter item,
   Event.runtest_setup_enter item,
   Event.fixture_setup_enter fx, Event.fixture_setup_exit,
   Event.runtest_setup_exit,
   Event.exception_interact excinfo { when := "setup", outcome := "failed", longrepr := longrepr },
   Event.runtest_logreport { when := "setup", outcome := "failed", longrepr := longrepr },
   Event.runtest_teardown_enter item,
   Event.fixture_post_finalizer fx,
   Event.runtest_teardown_exit,
   Event.runtest_logreport { when := "teardown", outcome := "passed", longrepr := "" },
   Event.runtest_protocol_exit]

/-- Plugin state after a session start followed by one failing-setup item:
the item sits at `fp:3`, the broken fixture `fx_name` at `fx_fp:5`. -/
def failing_setup_final (session_name item_name nodeid fp fx_name fx_fp : String)
    (excinfo : ExceptionInfo) (longrepr : String) : PluginState :=
  run_events (pytest_sessionstart session_name)
    (failing_setup_item_events
      { name := item_name, nodeid := nodeid, filepath := fp, line_number := some 3 }
      { argname := fx_name, cached_result := some (), has_location := true,
        filepath := fx_fp, line_number := 5 }
      excinfo longrepr)

/-- Does a notification OR a `call`-phase failure into `has_error`? -/
def logreport_flips (e : Event) : Bool :=
  match e with
  | Event.runtest_logreport report => report.when == "call" && report.outcome == "failed"
  | _ => false

/-- The `code.lineno` attribute value an optional source line should yield:
present with the line number exactly when the line is known and nonzero. -/
def expected_lineno : Option Int → Option AttrVal
  | some n => if n ≠ 0 then some (AttrVal.int n) else none
  | none => none

attribute [simp] lookupAttr hasAttr set_attribute set_attributes modifySpanList
  start_span current_span start_as_current_span exit_current_span new_span
  runtest_protocol_attributes runtest_setup_attributes runtest_call_attributes
  runtest_teardown_attributes fixture_setup_attributes fixture_post_finalizer_attributes
  pytest_sessionstart try_force_flush
  pytest_runtest_protocol_enter pytest_runtest_protocol_exit
  pytest_runtest_setup_enter pytest_runtest_setup_exit
  pytest_runtest_call_enter pytest_runtest_call_exit
  pytest_runtest_teardown_enter pytest_runtest_teardown_exit
  pytest_fixture_setup_enter pytest_fixture_setup_exit
  pytest_fixture_post_finalizer pytest_exception_interact pytest_runtest_logreport
  step run_events span_type reported_spans reported_span_names
  reported_fixture_teardown_names
  no_fixture_item_events no_fixture_final chained_fixture_item_events chained_final
  failing_call_item_events failing_call_final failing_setup_item_events
  failing_setup_final logreport_flips

/-- `modifySpanList` preserves the store's length. -/
theorem modifySpanList_length (l : List Span) (i : Nat) (f : Span → Span) :
    (modifySpanList l i f).length = l.length := by
  induction l generalizing i with
  | nil => simp [modifySpanList]
  | cons s rest ih =>
    cases i with
    | zero => simp [modifySpanList]
    | succ n => simp [modifySpanList, ih]

/-- Reading back an in-range modified entry gives the modified span. -/
theorem modifySpanList_getD (l : List Span) (i : Nat) (f : Span → Span) (d : Span)
    (h : i < l.length) : (modifySpanList l i f).getD i d = f (l.getD i d) := by
  induction l generalizing i with
  | nil => simp at h
  | cons s rest ih =>
    cases i with
    | zero => simp [modifySpanList]
    | succ n =>
      simp only [modifySpanList, List.getD_cons_succ]
      exact ih n (by simpa using h)

/-- C1: for a test item using fixtures A (depending on nothing) and B
(depending on A), processing the item's teardown-phase and finalizer
notification sequence reports fixture-teardown spans named exactly
`"B teardown"` then `"A teardown"`, in that order, with no extra or missing
fixture-teardown spans; the only spans still carrying the temporary
placeholder name (the untouched placeholders, recognizable by their empty
attribute set) are never ended, hence never reported. -/
theorem chained_fixture_teardown_spans
    (session_name item_name nodeid fp a_name a_fp b_name b_fp : String) :
    reported_fixture_teardown_names
        (chained_final session_name item_name nodeid fp a_name a_fp b_name b_fp) =
      [b_name ++ " teardown", a_name ++ " teardown"]
    ∧ (chained_final session_name item_name nodeid fp a_name a_fp b_name b_fp).spans.map
        (fun s => (s.name, span_type s, s.ended)) =
      [(session_name, some (AttrVal.str "run"), false),
       (item_name, some (AttrVal.str "test"), true),
       (item_name ++ " setup", some (AttrVal.str "test setup"), true),
       (a_name ++ " setup", some (AttrVal.str "fixture setup"), true),
       (b_name ++ " setup", some (AttrVal.str "fixture setup"), true),
       (item_name ++ " call", some (AttrVal.str "test call"), true),
       (item_name ++ " teardown", some (AttrVal.str "test teardown"), true),
       (b_name ++ " teardown", some (AttrVal.str "fixture teardown"), true),
       ("fixture teardown", none, false),
       (a_name ++ " teardown", some (AttrVal.str "fixture teardown"), true),
       ("fixture teardown", none, false)] := by
  constructor
  · simp [PYTEST_SPAN_TYPE, CODE_FILEPATH, CODE_FUNCTION, CODE_LINENO]
  · simp [PYTEST_SPAN_TYPE, CODE_FILEPATH, CODE_FUNCTION, CODE_LINENO]

/-- C2: a test item that uses no fixtures reports exactly the spans
{test, test setup, test call, test teardown}; the teardown placeholder is
never ended (so never reported) and the placeholder slot is deleted when the
teardown phase ends. -/
theorem no_fixture_item_spans (session_name : String) (item : Item) :
    reported_span_names (no_fixture_final session_name item) =
      [item.name, item.name ++ " setup", item.name ++ " call", item.name ++ " teardown"]
    ∧ (no_fixture_final session_name item).spans.map (fun s => (s.name, s.ended)) =
      [(session_name, false), (item.name, true), (item.name ++ " setup", true),
       (item.name ++ " call", true), (item.name ++ " teardown", true),
       ("fixture teardown", false)]
    ∧ (no_fixture_final session_name item).fixture_teardown_span = none := by
  refine ⟨?_, ?_, ?_⟩ <;> rfl

/-- C3: a finalizer notification for a fixture with no cached result is a
no-op cycle: the store is unchanged except that a fresh, unended placeholder
is appended (so nothing is renamed, ended, or reported), and the placeholder
slot now points at that fresh span, ready for the next notification. -/
theorem post_finalizer_no_cached_result_cycles (st : PluginState)
    (fixturedef : FixtureDef) (cur : Nat)
    (hslot : st.fixture_teardown_span = some cur)
    (hcached : fixturedef.cached_result = none) :
    pytest_fixture_post_finalizer st fixturedef =
      { st with
        spans := st.spans ++ [new_span "fixture teardown" [] (current_span st)],
        fixture_teardown_span := some st.spans.length } := by
  simp [pytest_fixture_post_finalizer, hslot, hcached]

/-- Witness for C3 at a concrete state: a teardown phase has begun (slot at
span 2) and the finalized fixture has no cached result. -/
theorem post_finalizer_no_cached_result_cycles_witness :
    (pytest_runtest_teardown_enter (pytest_sessionstart "test run")
        { name := "test_one", nodeid := "t.py::test_one", filepath := "t.py",
          line_number := some 3 }).fixture_teardown_span = some 2
    ∧ (FixtureDef.mk "a" none true "t.py" 1).cached_result = none
    ∧ pytest_fixture_post_finalizer
        (pytest_runtest_teardown_enter (pytest_sessionstart "test run")
          { name := "test_one", nodeid := "t.py::test_one", filepath := "t.py",
            line_number := some 3 })
        (FixtureDef.mk "a" none true "t.py" 1) =
      { (pytest_runtest_teardown_enter (pytest_sessionstart "test run")
          { name := "test_one", nodeid := "t.py::test_one", filepath := "t.py",
            line_number := some 3 }) with
        spans := (pytest_runtest_teardown_enter (pytest_sessionstart "test run")
          { name := "test_one", nodeid := "t.py::test_one", filepath := "t.py",
            line_number := some 3 }).spans ++
            [new_span "fixture teardown" []
              (current_span (pytest_runtest_teardown_enter (pytest_sessionstart "test run")
                { name := "test_one", nodeid := "t.py::test_one", filepath := "t.py",
                  line_number := some 3 }))],
        fixture_teardown_span := some (pytest_runtest_teardown_enter
          (pytest_sessionstart "test run")
          { name := "test_one", nodeid := "t.py::test_one", filepath := "t.py",
            line_number := some 3 }).spans.length } :=
  ⟨rfl, rfl,
    post_finalizer_no_cached_result_cycles _ _ 2 rfl rfl⟩

/-- C4: a finalizer notification arriving while no placeholder is open (the
plugin attribute was never set or was deleted, e.g. after early termination)
does not fail: the store is unchanged except that a fresh, unended
placeholder is appended (nothing is ended or reported), and the slot points
at it for the next notification. -/
theorem post_finalizer_without_placeholder_recovers (st : PluginState)
    (fixturedef : FixtureDef)
    (hslot : st.fixture_teardown_span = none) :
    pytest_fixture_post_finalizer st fixturedef =
      { st with
        spans := st.spans ++ [new_span "fixture teardown" [] (current_span st)],
        fixture_teardown_span := some st.spans.length } := by
  simp [pytest_fixture_post_finalizer, hslot]

/-- Witness for C4 at a concrete state: a bare session (no teardown phase in
progress, so the placeholder slot is absent). -/
theorem post_finalizer_without_placeholder_recovers_witness :
    (pytest_sessionstart "test run").fixture_teardown_span = none
    ∧ pytest_fixture_post_finalizer (pytest_sessionstart "test run")
        (FixtureDef.mk "a" (some ()) true "t.py" 1) =
      { (pytest_sessionstart "test run") with
        spans := (pytest_sessionstart "test run").spans ++
          [new_span "fixture teardown" [] (current_span (pytest_sessionstart "test run"))],
        fixture_teardown_span := some (pytest_sessionstart "test run").spans.length } :=
  ⟨rfl, post_finalizer_without_placeholder_recovers _ _ rfl⟩

/-- C5: the aggregate error flag starts false at session start; processing
any single notification ORs in exactly the predicate "this is a `call`-phase
report with outcome `failed`" — so setup/teardown reports (and every other
notification) leave the flag unchanged and the flag never goes back from
true to false. -/
theorem has_error_flag_dynamics (session_name : String) (st : PluginState)
    (e : Event) :
    (pytest_sessionstart session_name).has_error = false
    ∧ (step st e).has_error = (st.has_error || logreport_flips e) := by
  constructor
  · rfl
  · cases e with
    | runtest_protocol_enter item => simp
    | runtest_protocol_exit =>
        simp only [step, pytest_runtest_protocol_exit, exit_current_span, logreport_flips]
        cases st.ctx <;> simp
    | runtest_setup_enter item => simp
    | runtest_setup_exit =>
        simp only [step, pytest_runtest_setup_exit, exit_current_span, logreport_flips]
        cases st.ctx <;> simp
    | runtest_call_enter item => simp
    | runtest_call_exit =>
        simp only [step, pytest_runtest_call_exit, exit_current_span, logreport_flips]
        cases st.ctx <;> simp
    | runtest_teardown_enter item => simp
    | runtest_teardown_exit =>
        simp only [step, pytest_runtest_teardown_exit, logreport_flips]
        cases st.ctx <;> simp
    | fixture_setup_enter fixturedef => simp
    | fixture_setup_exit =>
        simp only [step, pytest_fixture_setup_exit, exit_current_span, logreport_flips]
        cases st.ctx <;> simp
    | fixture_post_finalizer fixturedef =>
        simp only [step, pytest_fixture_post_finalizer, logreport_flips]
        cases hslot : st.fixture_teardown_span with
        | none => simp
        | some cur => cases fixturedef.cached_result <;> simp
    | exception_interact excinfo report =>
        simp only [step, pytest_exception_interact, current_span, logreport_flips]
        cases st.ctx <;> simp
    | runtest_logreport report =>
        simp only [step, pytest_runtest_logreport, logreport_flips]
        by_cases hwhen : report.when = "call"
        · simp only [hwhen]
          cases st.ctx <;> simp
        · simp [hwhen]

/-- C6: at session end the run span gets status ERROR exactly when the
aggregate error flag is set (OK otherwise, with no description), the run span
is ended, and the exporter flush is attempted: the attempt returns precisely
whether the provider supports `force_flush`, so a provider without flush
support yields a no-op `false` result (and, being a total function, never
raises). -/
theorem sessionfinish_status_end_and_flush (st : PluginState)
    (provider : TracerProvider) (h : st.session_span < st.spans.length) :
    ((pytest_sessionfinish st provider).1.spans.getD st.session_span default).status =
      { status_code := (if st.has_error then StatusCode.error else StatusCode.ok),
        description := none }
    ∧ ((((pytest_sessionfinish st provider).1.spans.getD st.session_span
          default).status.status_code = StatusCode.error) ↔ st.has_error = true)
    ∧ ((pytest_sessionfinish st provider).1.spans.getD st.session_span default).ended = true
    ∧ (pytest_sessionfinish st provider).2 = provider.has_force_flush
    ∧ (provider.has_force_flush = false → (pytest_sessionfinish st provider).2 = false) := by
  have hmod := modifySpanList_getD st.spans st.session_span
    (fun s =>
      { s with
        status :=
          { status_code := (if st.has_error then StatusCode.error else StatusCode.ok),
            description := none },
        ended := true })
    default h
  refine ⟨?_, ?_, ?_, ?_, ?_⟩
  · simp only [pytest_sessionfinish, hmod]
  · simp only [pytest_sessionfinish, hmod]
    cases hflag : st.has_error <;> simp
  · simp only [pytest_sessionfinish, hmod]
  · simp only [pytest_sessionfinish, try_force_flush]
    cases provider.has_force_flush <;> simp
  · intro hflush
    simp [pytest_sessionfinish, try_force_flush, hflush]

/-- Witness for C6 at a concrete state: a fresh session (run span at index 0)
with a provider lacking `force_flush`. -/
theorem sessionfinish_status_end_and_flush_witness :
    (pytest_sessionstart "test run").session_span <
      (pytest_sessionstart "test run").spans.length
    ∧ (((pytest_sessionfinish (pytest_sessionstart "test run")
          (TracerProvider.mk false)).1.spans.getD
          (pytest_sessionstart "test run").session_span default).status =
        { status_code := (if (pytest_sessionstart "test run").has_error then
            StatusCode.error else StatusCode.ok),
          description := none }
      ∧ ((((pytest_sessionfinish (pytest_sessionstart "test run")
            (TracerProvider.mk false)).1.spans.getD
            (pytest_sessionstart "test run").session_span
            default).status.status_code = StatusCode.error) ↔
          (pytest_sessionstart "test run").has_error = true)
      ∧ ((pytest_sessionfinish (pytest_sessionstart "test run")
          (TracerProvider.mk false)).1.spans.getD
          (pytest_sessionstart "test run").session_span default).ended = true
      ∧ (pytest_sessionfinish (pytest_sessionstart "test run")
          (TracerProvider.mk false)).2 = (TracerProvider.mk false).has_force_flush
      ∧ ((TracerProvider.mk false).has_force_flush = false →
          (pytest_sessionfinish (pytest_sessionstart "test run")
            (TracerProvider.mk false)).2 = false)) :=
  ⟨by decide,
   sessionfinish_status_end_and_flush (pytest_sessionstart "test run")
     (TracerProvider.mk false) (by decide)⟩

/-- C7: an exception-interact notification records exactly one exception
event on the currently active span — with `str(report.longrepr)` as the
event's stacktrace — and sets that span's status to ERROR described by
exception type and message; consequently, in the failing-call scenario the
test span ends up with exactly one recorded exception event and a non-ok
status while the setup/call/teardown phase spans all stay status-ok. -/
theorem exception_interact_records_once (st : PluginState) (i : Nat)
    (excinfo : ExceptionInfo) (report : TestReport)
    (session_name : String) (item : Item) (longrepr : String)
    (hcur : current_span st = some i) (hlen : i < st.spans.length) :
    (pytest_exception_interact st excinfo report).spans.getD i default =
      { st.spans.getD i default with
        events := (st.spans.getD i default).events ++
          [{ exception_type := excinfo.type_name,
             exception_message := excinfo.value,
             exception_stacktrace := report.longrepr }],
        status := { status_code := StatusCode.error,
                    description := some (excinfo.type_repr ++ ": " ++ excinfo.value) } }
    ∧ (failing_call_final session_name item excinfo longrepr).spans.map
        (fun s => (s.name, s.events, s.status.is_ok)) =
      [(session_name, [], true),
       (item.name,
        [{ exception_type := excinfo.type_name,
           exception_message := excinfo.value,
           exception_stacktrace := longrepr }], false),
       (item.name ++ " setup", [], true),
       (item.name ++ " call", [], true),
       (item.name ++ " teardown", [], true),
       ("fixture teardown", [], true)] := by
  constructor
  · unfold pytest_exception_interact
    rw [hcur]
    simp only []
    rw [modifySpanList_getD _ _ _ _ hlen]
  · rfl

/-- Witness for C7 at a concrete state: inside an item's protocol bracket the
test span (index 1) is current, and an assertion failure is reported. -/
theorem exception_interact_records_once_witness :
    current_span (pytest_runtest_protocol_enter (pytest_sessionstart "test run")
      (Item.mk "test_one" "t.py::test_one" "t.py" (some 3))) = some 1
    ∧ 1 < (pytest_runtest_protocol_enter (pytest_sessionstart "test run")
        (Item.mk "test_one" "t.py::test_one" "t.py" (some 3))).spans.length
    ∧ ((pytest_exception_interact
          (pytest_runtest_protocol_enter (pytest_sessionstart "test run")
            (Item.mk "test_one" "t.py::test_one" "t.py" (some 3)))
          (ExceptionInfo.mk "<class 'AssertionError'>" "AssertionError" "assert 1 + 2 == 4")
          (TestReport.mk "call" "failed" "traceback text")).spans.getD 1 default =
        { (pytest_runtest_protocol_enter (pytest_sessionstart "test run")
            (Item.mk "test_one" "t.py::test_one" "t.py" (some 3))).spans.getD 1 default with
          events := ((pytest_runtest_protocol_enter (pytest_sessionstart "test run")
            (Item.mk "test_one" "t.py::test_one" "t.py" (some 3))).spans.getD 1
              default).events ++
            [{ exception_type := "AssertionError",
               exception_message := "assert 1 + 2 == 4",
               exception_stacktrace := "traceback text" }],
          status := { status_code := StatusCode.error,
                      description := some ("<class 'AssertionError'>" ++ ": " ++
                        "assert 1 + 2 == 4") } }
      ∧ (failing_call_final "test run"
          (Item.mk "test_one" "t.py::test_one" "t.py" (some 3))
          (ExceptionInfo.mk "<class 'AssertionError'>" "AssertionError" "assert 1 + 2 == 4")
          "traceback text").spans.map (fun s => (s.name, s.events, s.status.is_ok)) =
        [("test run", [], true),
         ("test_one",
          [{ exception_type := "AssertionError",
             exception_message := "assert 1 + 2 == 4",
             exception_stacktrace := "traceback text" }], false),
         ("test_one" ++ " setup", [], true),
         ("test_one" ++ " call", [], true),
         ("test_one" ++ " teardown", [], true),
         ("fixture teardown", [], true)]) :=
  by
  refine ⟨rfl, by decide, ?_⟩
  exact exception_interact_records_once
    (pytest_runtest_protocol_enter (pytest_sessionstart "test run")
      (Item.mk "test_one" "t.py::test_one" "t.py" (some 3)))
    1
    (ExceptionInfo.mk "<class 'AssertionError'>" "AssertionError" "assert 1 + 2 == 4")
    (TestReport.mk "call" "failed" "traceback text")
    "test run"
    (Item.mk "test_one" "t.py::test_one" "t.py" (some 3))
    "traceback text"
    rfl (by decide)

/-- C8: when an item's fixture setup raises, the runner never invokes the
call-phase hook, so no call-phase span is ever created: the item's span set
contains the test, setup-phase, fixture-setup, teardown-phase and
fixture-teardown spans (plus the unended, unreported placeholder), no span
tagged `"test call"` exists, and the test span carries error status while
the phase spans stay status-ok. -/
theorem failing_setup_skips_call_span
    (session_name item_name nodeid fp fx_name fx_fp : String)
    (excinfo : ExceptionInfo) (longrepr : String) :
    (failing_setup_final session_name item_name nodeid fp fx_name fx_fp
        excinfo longrepr).spans.map
        (fun s => (s.name, span_type s, s.ended, s.status.is_ok)) =
      [(session_name, some (AttrVal.str "run"), false, true),
       (item_name, some (AttrVal.str "test"), true, false),
       (item_name ++ " setup", some (AttrVal.str "test setup"), true, true),
       (fx_name ++ " setup", some (AttrVal.str "fixture setup"), true, true),
       (item_name ++ " teardown", some (AttrVal.str "test teardown"), true, true),
       (fx_name ++ " teardown", some (AttrVal.str "fixture teardown"), true, true),
       ("fixture teardown", none, false, true)]
    ∧ (failing_setup_final session_name item_name nodeid fp fx_name fx_fp
        excinfo longrepr).spans.filter
        (fun s => span_type s == some (AttrVal.str "test call")) = [] := by
  constructor
  · simp [PYTEST_SPAN_TYPE, CODE_FILEPATH, CODE_FUNCTION, CODE_LINENO, Status.is_ok]
  · simp [PYTEST_SPAN_TYPE, CODE_FILEPATH, CODE_FUNCTION, CODE_LINENO]

/-- C9: the `code.lineno` attribute of every span the plugin creates is
present exactly when a nonzero line number is known, and then carries that
value — never a zero sentinel.  This holds for the attribute sets of the
test/protocol span and the three phase spans (driven by `item.location`) and
for the fixture-setup and fixture-teardown attribute sets (driven by the
fixture's resolved location, absent entirely when the fixture has none); the
trailing conjuncts pin these attribute sets to the spans the handlers create
(the fixture-teardown set is applied to the placeholder's empty attribute
dict unchanged). -/
theorem lineno_attribute_presence (item : Item) (fixturedef : FixtureDef)
    (st : PluginState) :
    lookupAttr CODE_LINENO (runtest_protocol_attributes item) =
      expected_lineno item.line_number
    ∧ lookupAttr CODE_LINENO (runtest_setup_attributes item) =
      expected_lineno item.line_number
    ∧ lookupAttr CODE_LINENO (runtest_call_attributes item) =
      expected_lineno item.line_number
    ∧ lookupAttr CODE_LINENO (runtest_teardown_attributes item) =
      expected_lineno item.line_number
    ∧ lookupAttr CODE_LINENO (fixture_setup_attributes fixturedef) =
      (if fixturedef.has_location then expected_lineno (some fixturedef.line_number)
       else none)
    ∧ lookupAttr CODE_LINENO (fixture_post_finalizer_attributes fixturedef) =
      (if fixturedef.has_location then expected_lineno (some fixturedef.line_number)
       else none)
    ∧ (pytest_runtest_protocol_enter st item).spans =
      st.spans ++ [new_span item.name (runtest_protocol_attributes item)
        (some st.session_span)]
    ∧ (pytest_runtest_setup_enter st item).spans =
      st.spans ++ [new_span (item.name ++ " setup") (runtest_setup_attributes item)
        (current_span st)]
    ∧ (pytest_runtest_call_enter st item).spans =
      st.spans ++ [new_span (item.name ++ " call") (runtest_call_attributes item)
        (current_span st)]
    ∧ (pytest_runtest_teardown_enter st item).spans =
      st.spans ++ [new_span (item.name ++ " teardown") (runtest_teardown_attributes item)
        (current_span st),
        new_span "fixture teardown" [] (some st.spans.length)]
    ∧ (pytest_fixture_setup_enter st fixturedef).spans =
      st.spans ++ [new_span (fixturedef.argname ++ " setup")
        (fixture_setup_attributes fixturedef) (current_span st)]
    ∧ set_attributes [] (fixture_post_finalizer_attributes fixturedef) =
      fixture_post_finalizer_attributes fixturedef := by
  refine ⟨?_, ?_, ?_, ?_, ?_, ?_, rfl, rfl, rfl, rfl, rfl, ?_⟩
  · cases hln : item.line_number with
    | none => simp [hln, expected_lineno, CODE_LINENO, CODE_FILEPATH, CODE_FUNCTION,
        PYTEST_SPAN_TYPE]
    | some n =>
        by_cases hn : n = 0 <;>
          simp [hln, hn, expected_lineno, CODE_LINENO, CODE_FILEPATH, CODE_FUNCTION,
            PYTEST_SPAN_TYPE]
  · cases hln : item.line_number with
    | none => simp [hln, expected_lineno, CODE_LINENO, CODE_FILEPATH, CODE_FUNCTION,
        PYTEST_SPAN_TYPE]
    | some n =>
        by_cases hn : n = 0 <;>
          simp [hln, hn, expected_lineno, CODE_LINENO, CODE_FILEPATH, CODE_FUNCTION,
            PYTEST_SPAN_TYPE]
  · cases hln : item.line_number with
    | none => simp [hln, expected_lineno, CODE_LINENO, CODE_FILEPATH, CODE_FUNCTION,
        PYTEST_SPAN_TYPE]
    | some n =>
        by_cases hn : n = 0 <;>
          simp [hln, hn, expected_lineno, CODE_LINENO, CODE_FILEPATH, CODE_FUNCTION,
            PYTEST_SPAN_TYPE]
  · cases hln : item.line_number with
    | none => simp [hln, expected_lineno, CODE_LINENO, CODE_FILEPATH, CODE_FUNCTION,
        PYTEST_SPAN_TYPE]
    | some n =>
        by_cases hn : n = 0 <;>
          simp [hln, hn, expected_lineno, CODE_LINENO, CODE_FILEPATH, CODE_FUNCTION,
            PYTEST_SPAN_TYPE]
  · by_cases hloc : fixturedef.has_location
    · by_cases hn : fixturedef.line_number = 0 <;>
        simp [hloc, hn, expected_lineno, CODE_LINENO, CODE_FILEPATH, PYTEST_SPAN_TYPE]
    · simp [hloc, CODE_LINENO, PYTEST_SPAN_TYPE]
  · by_cases hloc : fixturedef.has_location
    · by_cases hn : fixturedef.line_number = 0 <;>
        simp [hloc, hn, expected_lineno, CODE_LINENO, CODE_FILEPATH, PYTEST_SPAN_TYPE]
    · simp [hloc, CODE_LINENO, PYTEST_SPAN_TYPE]
  · by_cases hloc : fixturedef.has_location
    · by_cases hn : fixturedef.line_number = 0 <;>
        simp [hloc, hn, CODE_LINENO, CODE_FILEPATH, PYTEST_SPAN_TYPE]
    · simp [hloc, PYTEST_SPAN_TYPE]

/-- C10: parent trace-context resolution precedence.  The base plugin uses
the `--trace-parent` option when present (Python-truthy, i.e. non-empty),
otherwise the `TRACEPARENT` environment variable, otherwise no parent; the
xdist variant uses the worker handshake payload (`config.workerinput`) when
present and non-empty, falling back to the base rule otherwise. -/
theorem trace_parent_precedence (config : Config) (environ : Environ) :
    (∀ tp, config.trace_parent_option = some tp → tp ≠ "" →
      OpenTelemetryPlugin.get_trace_parent config environ =
        some (propagate_extract [("traceparent", tp)]))
    ∧ (∀ tp, truthy_str config.trace_parent_option = none →
        environ.TRACEPARENT = some tp → tp ≠ "" →
        OpenTelemetryPlugin.get_trace_parent config environ =
          some (propagate_extract [("traceparent", tp)]))
    ∧ (truthy_str config.trace_parent_option = none →
        truthy_str environ.TRACEPARENT = none →
        OpenTelemetryPlugin.get_trace_parent config environ = none)
    ∧ (∀ wi, config.workerinput = some wi → wi ≠ [] →
        XdistOpenTelemetryPlugin.get_trace_parent config environ =
          some (propagate_extract wi))
    ∧ (truthy_dict config.workerinput = none →
        XdistOpenTelemetryPlugin.get_trace_parent config environ =
          OpenTelemetryPlugin.get_trace_parent config environ) := by
  refine ⟨?_, ?_, ?_, ?_, ?_⟩
  · intro tp htp hne
    simp [OpenTelemetryPlugin.get_trace_parent, truthy_str, htp, hne]
  · intro tp hopt henv hne
    simp only [OpenTelemetryPlugin.get_trace_parent]
    rw [hopt]
    simp [truthy_str, henv, hne]
  · intro hopt henv
    simp [OpenTelemetryPlugin.get_trace_parent, hopt, henv]
  · intro wi hwi hne
    simp [XdistOpenTelemetryPlugin.get_trace_parent, truthy_dict, hwi, hne]
  · intro hwi
    simp [XdistOpenTelemetryPlugin.get_trace_parent, hwi]

/-- Witness for C10: concrete configurations exercising each precedence rule
(option set; only the environment variable set; neither set; a worker
handshake payload set; no payload). -/
theorem trace_parent_precedence_witness :
    OpenTelemetryPlugin.get_trace_parent (Config.mk (some "00-aa-bb-01") none)
        (Environ.mk (some "00-cc-dd-01")) =
      some (propagate_extract [("traceparent", "00-aa-bb-01")])
    ∧ OpenTelemetryPlugin.get_trace_parent (Config.mk none none)
        (Environ.mk (some "00-cc-dd-01")) =
      some (propagate_extract [("traceparent", "00-cc-dd-01")])
    ∧ OpenTelemetryPlugin.get_trace_parent (Config.mk none none) (Environ.mk none) = none
    ∧ XdistOpenTelemetryPlugin.get_trace_parent
        (Config.mk (some "00-aa-bb-01") (some [("traceparent", "00-ee-ff-01")]))
        (Environ.mk none) =
      some (propagate_extract [("traceparent", "00-ee-ff-01")])
    ∧ XdistOpenTelemetryPlugin.get_trace_parent (Config.mk (some "00-aa-bb-01") none)
        (Environ.mk none) =
      OpenTelemetryPlugin.get_trace_parent (Config.mk (some "00-aa-bb-01") none)
        (Environ.mk none) := by
  refine ⟨?_, ?_, ?_, ?_, ?_⟩
  · exact (trace_parent_precedence (Config.mk (some "00-aa-bb-01") none)
      (Environ.mk (some "00-cc-dd-01"))).1 "00-aa-bb-01" rfl (by decide)
  · exact (trace_parent_precedence (Config.mk none none)
      (Environ.mk (some "00-cc-dd-01"))).2.1 "00-cc-dd-01" rfl rfl (by decide)
  · exact (trace_parent_precedence (Config.mk none none) (Environ.mk none)).2.2.1 rfl rfl
  · exact (trace_parent_precedence
      (Config.mk (some "00-aa-bb-01") (some [("traceparent", "00-ee-ff-01")]))
      (Environ.mk none)).2.2.2.1 [("traceparent", "00-ee-ff-01")] rfl (by decide)
  · exact (trace_parent_precedence (Config.mk (some "00-aa-bb-01") none)
      (Environ.mk none)).2.2.2.2 rfl
